import Mathlib

/-!
Shallow embedding of `src/run.py` (wking/oci-run): a lifecycle supervisor for a
single OCI container.  The supervisor drives a container runtime through
`create` → `state` → `start` → wait-for-exit → `delete`, interleaving the OCI
lifecycle hooks (`prestart`, `poststart`, `poststop`).

External effects (the filesystem holding `hooks.json`, `subprocess.Popen`
spawns, the wait-status ledger filled by the SIGCHLD handler, the JSON decode
of the `state` output) are modelled by an oracle structure `World`; the
control flow of the supervisor is translated function-by-function from the source
(`_reap`, `_get_hooks`, `_run_hook`, `_delete`, `main`).  `main` returns the
ordered trace of processes it spawned (plus the one error-log call on the
`state` failure path) together with its outcome: a `sys.exit` code or an
uncaught Python exception.
-/

namespace OciRun

/-- A hook object from `hooks.json`.  The source treats hooks as raw JSON
dicts: `hook["args"]`, `hook.get("path")`, `hook.get("env")`, and the
validation check of the key `timeout` being in the hook dict.  `timeout = some v` models the presence
of a `timeout` key. -/
structure Hook where
  args : List String
  path : Option String
  env : Option (List (String × String))
  timeout : Option Nat
  deriving Repr, DecidableEq

/-- The parsed `hooks.json` mapping.  A missing event key behaves exactly like
an empty list in the source (`hooks.get(event, [])`), so the two are
identified. -/
structure HookSet where
  prestart : List Hook
  poststart : List Hook
  poststop : List Hook
  deriving Repr, DecidableEq

/-- Python exceptions that can escape the supervisor uncaught, plus the
`NotImplementedError` raised for `hook.timeout`. -/
inductive RunError where
  /-- Failure of `json.loads` on the hook-definition file (malformed file). -/
  | parseError (msg : String)
  /-- The `NotImplementedError` raised for a hook with a timeout key. -/
  | notImplemented (msg : String)
  /-- Failure of `json.loads` or of the pid lookup on the `state` output. -/
  | decodeError (msg : String)
  /-- Raised when `subprocess.Popen` itself fails (e.g. `FileNotFoundError`). -/
  | spawnError (name : String)
  deriving Repr, DecidableEq

/-- Observable events of one run, in program order: each successful process
spawn (runtime subcommand or hook, the hook event carrying the bytes written
to the stdin of the hook), and the `_LOG.error(stderr)` call on the `state`
failure path. -/
inductive Event where
  /-- A `Popen(args=runtime + [sub, container_id])` call for a runtime subcommand. -/
  | runtimeSpawn (runtime : List String) (sub : String) (containerId : String)
  | hookSpawn (stage : String) (hook : Hook) (input : List Nat)
  | logStderr (bytes : List Nat)
  deriving Repr, DecidableEq

/-- How the supervisor process ends: `sys.exit code`, or an uncaught
exception. -/
inductive Outcome where
  | exited (code : Nat)
  | fatal (e : RunError)
  deriving Repr, DecidableEq

/-- Oracle for everything outside the control flow of the supervisor itself.

* `hooksFile`: `none` models `FileNotFoundError` on `hooks.json`;
  `some (.error e)` a present but malformed file; `some (.ok hs)` a parsed
  hook mapping.
* `spawnOk k` / `status k`: whether the `k`-th `Popen` call of the run (in
  program order, counting from 0) succeeds, and the wait status the SIGCHLD
  reaper eventually records for that child.
* `stateBytes` / `stateStderr`: the stdout/stderr bytes captured from the
  `state` subcommand by `communicate()`.
* `statePid`: the result of the pid lookup on `json.loads(state_bytes)`.
* `containerStatus pid`: the wait status the reaper records for the container
  main process `pid` (a child of the supervisor via the subreaper setup). -/
structure World where
  hooksFile : Option (Except String HookSet)
  spawnOk : Nat → Bool
  status : Nat → Nat
  stateBytes : List Nat
  stateStderr : List Nat
  statePid : Except String Nat
  containerStatus : Nat → Nat

/-- Ledger state of the SIGCHLD reaper model: the children that have exited
but are not yet reaped (as (pid, wait-status) pairs, oldest first), and the
`_REAPED_CHILDREN` map (as an association list in reap order). -/
structure ReapState where
  pending : List (Nat × Nat)
  reaped : List (Nat × Nat)
  deriving Repr, DecidableEq

/-- The SIGCHLD handler `_reap(signal, frame)`.  The body is exactly
`pid, status = os.wait(); _REAPED_CHILDREN[pid] = status`: one single
(blocking) `wait` call per delivered signal — there is no loop and no
`WNOHANG` drain.  When a child has already exited, `os.wait` returns it
immediately; we model one handler invocation on a state with at least one
exited child.  (With no exited child, `os.wait` would block inside the
handler; that state is returned unchanged here, as no reap happens.) -/
def _reap (s : ReapState) : ReapState :=
  match s.pending with
  | [] => s
  | c :: rest => ⟨rest, s.reaped ++ [c]⟩

/-- The loader `_get_hooks` as called from `main` (the unused `keys`
parameter is `None` there, so the key-descent branch is dead).  Missing file
⇒ `{}`; malformed file ⇒ the `json.loads` error propagates; then every hook
under `prestart`, `poststart`, `poststop` is checked for a `timeout` key,
raising `NotImplementedError` if one is present. -/
def _get_hooks (file : Option (Except String HookSet)) : Except RunError HookSet :=
  match file with
  | none => .ok ⟨[], [], []⟩
  | some (.error e) => .error (.parseError e)
  | some (.ok hooks) =>
      if (hooks.prestart ++ hooks.poststart ++ hooks.poststop).any
          (fun h => h.timeout.isSome) then
        .error (.notImplemented "hook.timeout is not supported yet")
      else
        .ok hooks

/-- Spawn counter and trace threaded through a run: `n` is the index of the
next `Popen` call, `tr` the events so far. -/
structure St where
  n : Nat
  tr : List Event
  deriving Repr, DecidableEq

/-- One `Popen(args=runtime + [sub, container_id])` followed by the
`while pid not in _REAPED_CHILDREN: signal.pause()` wait loop: returns the
recorded wait status, or `none` when `Popen` itself raises. -/
def spawnRuntime (w : World) (s : St) (runtime : List String) (sub : String)
    (containerId : String) : Option (Nat × St) :=
  if w.spawnOk s.n then
    some (w.status s.n,
          ⟨s.n + 1, s.tr ++ [Event.runtimeSpawn runtime sub containerId]⟩)
  else
    none

/-- The helper `_delete(runtime, container_id)`: spawn `delete`, wait for its status,
and discard the status.  `none` when the `Popen` raises. -/
def _delete (w : World) (s : St) (runtime : List String) (containerId : String) :
    Option St :=
  match spawnRuntime w s runtime "delete" containerId with
  | none => none
  | some (_, s1) => some s1

/-- Result of `_run_hook` for one hook: normal return, `HookError` raised
(strict mode, non-zero status), or the `Popen` call itself raised. -/
inductive HookStep where
  | ok (s : St)
  | failed (s : St) (status : Nat)
  | spawnErr (s : St)
  deriving Repr, DecidableEq

/-- The helper `_run_hook(hook, state_bytes, strict)`: `Popen` the hook (raising
uncaught on spawn failure), write `state_bytes` to its stdin (a
`BrokenPipeError` is swallowed, so the write never changes control flow),
wait for the reaped status, and raise `HookError` iff the status is non-zero
and `strict`. -/
def _run_hook (w : World) (s : St) (stage : String) (hook : Hook)
    (state_bytes : List Nat) (strict : Bool) : HookStep :=
  if w.spawnOk s.n then
    let st := w.status s.n
    let s1 : St := ⟨s.n + 1, s.tr ++ [Event.hookSpawn stage hook state_bytes]⟩
    if st ≠ 0 ∧ strict then .failed s1 st else .ok s1
  else
    .spawnErr s

/-- A hook loop of `main` (`for i, hook in enumerate(...)`):
run the hooks in order; a `.failed` or `.spawnErr` step aborts the loop (in
the source the exception propagates out of the loop body). -/
def runHookList (w : World) (s : St) (stage : String) (hooksL : List Hook)
    (state_bytes : List Nat) (strict : Bool) : HookStep :=
  match hooksL with
  | [] => .ok s
  | h :: rest =>
      match _run_hook w s stage h state_bytes strict with
      | .ok s1 => runHookList w s1 stage rest state_bytes strict
      | r => r

/-- The entry point `main(runtime, container_id)` after the SIGCHLD-handler / subreaper setup:
load hooks, `create`, `state` (capturing stdout/stderr), decode the container
pid, prestart hooks (strict; first `HookError` ⇒ `_delete` then
`sys.exit(1)`), `start`, poststart hooks (best-effort), wait for the
the status of the container pid, poststop hooks (best-effort), `_delete`, and finally
`sys.exit(status)` with the container status clamped to 127. -/
def main (w : World) (runtime : List String) (container_id : String) :
    List Event × Outcome :=
  match _get_hooks w.hooksFile with
  | .error e => ([], .fatal e)
  | .ok hooks =>
    match spawnRuntime w ⟨0, []⟩ runtime "create" container_id with
    | none => ([], .fatal (.spawnError "create"))
    | some (createStatus, s1) =>
      if createStatus ≠ 0 then (s1.tr, .exited 1)
      else
        match spawnRuntime w s1 runtime "state" container_id with
        | none => (s1.tr, .fatal (.spawnError "state"))
        | some (stateStatus, s2) =>
          if stateStatus ≠ 0 then
            let s2' : St := ⟨s2.n, s2.tr ++ [Event.logStderr w.stateStderr]⟩
            match _delete w s2' runtime container_id with
            | none => (s2'.tr, .fatal (.spawnError "delete"))
            | some s3 => (s3.tr, .exited 1)
          else
            match w.statePid with
            | .error e => (s2.tr, .fatal (.decodeError e))
            | .ok container_pid =>
              match runHookList w s2 "pre-start" hooks.prestart w.stateBytes true with
              | .spawnErr s3 => (s3.tr, .fatal (.spawnError "hook"))
              | .failed s3 _ =>
                  match _delete w s3 runtime container_id with
                  | none => (s3.tr, .fatal (.spawnError "delete"))
                  | some s4 => (s4.tr, .exited 1)
              | .ok s3 =>
                match spawnRuntime w s3 runtime "start" container_id with
                | none => (s3.tr, .fatal (.spawnError "start"))
                | some (startStatus, s4) =>
                  if startStatus ≠ 0 then
                    match _delete w s4 runtime container_id with
                    | none => (s4.tr, .fatal (.spawnError "delete"))
                    | some s5 => (s5.tr, .exited 1)
                  else
                    match runHookList w s4 "post-start" hooks.poststart w.stateBytes false with
                    | .spawnErr s5 => (s5.tr, .fatal (.spawnError "hook"))
                    | .failed s5 _ => (s5.tr, .fatal (.spawnError "hook"))
                    | .ok s5 =>
                      let containerWaitStatus := w.containerStatus container_pid
                      match runHookList w s5 "post-stop" hooks.poststop w.stateBytes false with
                      | .spawnErr s6 => (s6.tr, .fatal (.spawnError "hook"))
                      | .failed s6 _ => (s6.tr, .fatal (.spawnError "hook"))
                      | .ok s6 =>
                        match _delete w s6 runtime container_id with
                        | none => (s6.tr, .fatal (.spawnError "delete"))
                        | some s7 =>
                          (s7.tr,
                           .exited (if containerWaitStatus > 127 then 127
                                    else containerWaitStatus))

/-- The hook-spawn events produced by running the given hooks in order with
the given stdin payload. -/
def hookEvents (stage : String) (hooksL : List Hook) (state_bytes : List Nat) :
    List Event :=
  hooksL.map (fun h => Event.hookSpawn stage h state_bytes)

/-- The full trace of a run that reaches the final `sys.exit`: `create`,
`state`, all prestart hooks, `start`, all poststart hooks, all poststop
hooks, `delete`. -/
def fullTrace (w : World) (runtime : List String) (container_id : String)
    (hs : HookSet) : List Event :=
  [Event.runtimeSpawn runtime "create" container_id,
   Event.runtimeSpawn runtime "state" container_id]
    ++ hookEvents "pre-start" hs.prestart w.stateBytes
    ++ [Event.runtimeSpawn runtime "start" container_id]
    ++ hookEvents "post-start" hs.poststart w.stateBytes
    ++ hookEvents "post-stop" hs.poststop w.stateBytes
    ++ [Event.runtimeSpawn runtime "delete" container_id]

/-- The world with the wait statuses of every `Popen` call from index `m` on
(the calls after `start` when `m = 3 + #prestart`: poststart hooks, poststop
hooks, final `delete`) replaced by 0; everything else unchanged. -/
def zeroFrom (w : World) (m : Nat) : World :=
  { w with status := fun k => if k < m then w.status k else 0 }

/-- A run environment with no hook file, every spawn succeeding, every child
exiting 0, and the `state` payload decoding to container pid 42. -/
def baseWorld : World where
  hooksFile := none
  spawnOk := fun _ => true
  status := fun _ => 0
  stateBytes := [123, 125]
  stateStderr := [101, 114, 114]
  statePid := .ok 42
  containerStatus := fun _ => 0

/-- A plain hook with no `timeout` key. -/
def hookA : Hook := ⟨["hook-a"], none, none, none⟩

/-- A second plain hook. -/
def hookB : Hook := ⟨["hook-b"], none, none, none⟩

/-- A hook carrying a `timeout` key (`"timeout": 5`). -/
def hookT : Hook := ⟨["hook-t"], none, none, some 5⟩

/-! ### Lemmas about the hook loops -/

theorem runHookList_nonstrict_ok (w : World) (stage : String)
    (hooksL : List Hook) (state_bytes : List Nat) :
    ∀ s : St, (∀ k, k < hooksL.length → w.spawnOk (s.n + k) = true) →
      runHookList w s stage hooksL state_bytes false =
        .ok ⟨s.n + hooksL.length, s.tr ++ hookEvents stage hooksL state_bytes⟩ := by
  induction hooksL with
  | nil => intro s _; simp [runHookList, hookEvents]
  | cons h rest ih =>
      intro s hsp
      have h0 : w.spawnOk s.n = true := by
        have := hsp 0 (Nat.succ_pos _)
        simpa using this
      simp only [runHookList, _run_hook, h0, if_true, Bool.false_eq_true, and_false, ite_false]
      rw [ih ⟨s.n + 1, s.tr ++ [Event.hookSpawn stage h state_bytes]⟩ ?_]
      · simp [hookEvents]
        omega
      · intro k hk
        have heq : s.n + 1 + k = s.n + (k + 1) := by omega
        rw [show (⟨s.n + 1, s.tr ++ [Event.hookSpawn stage h state_bytes]⟩ : St).n
              = s.n + 1 from rfl, heq]
        exact hsp (k + 1) (by simpa using Nat.succ_lt_succ hk)

theorem runHookList_strict_ok (w : World) (stage : String)
    (hooksL : List Hook) (state_bytes : List Nat) :
    ∀ s : St, (∀ k, k < hooksL.length → w.spawnOk (s.n + k) = true) →
      (∀ k, k < hooksL.length → w.status (s.n + k) = 0) →
      runHookList w s stage hooksL state_bytes true =
        .ok ⟨s.n + hooksL.length, s.tr ++ hookEvents stage hooksL state_bytes⟩ := by
  induction hooksL with
  | nil => intro s _ _; simp [runHookList, hookEvents]
  | cons h rest ih =>
      intro s hsp hst
      have h0 : w.spawnOk s.n = true := by
        have := hsp 0 (Nat.succ_pos _)
        simpa using this
      have h0' : w.status s.n = 0 := by
        have := hst 0 (Nat.succ_pos _)
        simpa using this
      simp only [runHookList, _run_hook, h0, h0', if_true, ne_eq, not_true_eq_false,
        false_and, ite_false]
      rw [ih ⟨s.n + 1, s.tr ++ [Event.hookSpawn stage h state_bytes]⟩ ?_ ?_]
      · simp [hookEvents]
        omega
      · intro k hk
        have heq : s.n + 1 + k = s.n + (k + 1) := by omega
        rw [show (⟨s.n + 1, s.tr ++ [Event.hookSpawn stage h state_bytes]⟩ : St).n
              = s.n + 1 from rfl, heq]
        exact hsp (k + 1) (by simpa using Nat.succ_lt_succ hk)
      · intro k hk
        have heq : s.n + 1 + k = s.n + (k + 1) := by omega
        rw [show (⟨s.n + 1, s.tr ++ [Event.hookSpawn stage h state_bytes]⟩ : St).n
              = s.n + 1 from rfl, heq]
        exact hst (k + 1) (by simpa using Nat.succ_lt_succ hk)

theorem runHookList_strict_fail (w : World) (stage : String)
    (state_bytes : List Nat) :
    ∀ (hooksL : List Hook) (s : St) (j : Nat), j < hooksL.length →
      (∀ k, k < j → w.spawnOk (s.n + k) = true ∧ w.status (s.n + k) = 0) →
      w.spawnOk (s.n + j) = true → w.status (s.n + j) ≠ 0 →
      runHookList w s stage hooksL state_bytes true =
        .failed ⟨s.n + j + 1, s.tr ++ hookEvents stage (hooksL.take (j + 1)) state_bytes⟩
          (w.status (s.n + j)) := by
  intro hooksL
  induction hooksL with
  | nil => intro s j hj; exact absurd hj (by simp)
  | cons h rest ih =>
      intro s j hj hok hsp hst
      match j with
      | 0 =>
          have hsp0 : w.spawnOk s.n = true := by simpa using hsp
          have hst0 : w.status s.n ≠ 0 := by simpa using hst
          simp [runHookList, _run_hook, hsp0, hst0, hookEvents]
      | j + 1 =>
          have h0 : w.spawnOk s.n = true := by
            have := (hok 0 (Nat.succ_pos _)).1
            simpa using this
          have h0' : w.status s.n = 0 := by
            have := (hok 0 (Nat.succ_pos _)).2
            simpa using this
          simp only [runHookList, _run_hook, h0, h0', if_true, ne_eq,
            not_true_eq_false, false_and, ite_false]
          rw [ih ⟨s.n + 1, s.tr ++ [Event.hookSpawn stage h state_bytes]⟩ j
              (by simpa using Nat.lt_of_succ_lt_succ hj) ?_ ?_ ?_]
          · have heq : s.n + 1 + j = s.n + (j + 1) := by omega
            simp [heq, hookEvents]
          · intro k hk
            have heq : s.n + 1 + k = s.n + (k + 1) := by omega
            rw [show (⟨s.n + 1, s.tr ++ [Event.hookSpawn stage h state_bytes]⟩ : St).n
                  = s.n + 1 from rfl, heq]
            exact hok (k + 1) (by omega)
          · have heq : s.n + 1 + j = s.n + (j + 1) := by omega
            rw [show (⟨s.n + 1, s.tr ++ [Event.hookSpawn stage h state_bytes]⟩ : St).n
                  = s.n + 1 from rfl, heq]
            exact hsp
          · have heq : s.n + 1 + j = s.n + (j + 1) := by omega
            rw [show (⟨s.n + 1, s.tr ++ [Event.hookSpawn stage h state_bytes]⟩ : St).n
                  = s.n + 1 from rfl, heq]
            exact hst

theorem runHookList_nonstrict_spawnErr (w : World) (stage : String)
    (state_bytes : List Nat) :
    ∀ (hooksL : List Hook) (s : St) (j : Nat), j < hooksL.length →
      (∀ k, k < j → w.spawnOk (s.n + k) = true) →
      w.spawnOk (s.n + j) = false →
      runHookList w s stage hooksL state_bytes false =
        .spawnErr ⟨s.n + j, s.tr ++ hookEvents stage (hooksL.take j) state_bytes⟩ := by
  intro hooksL
  induction hooksL with
  | nil => intro s j hj; exact absurd hj (by simp)
  | cons h rest ih =>
      intro s j hj hok hsp
      match j with
      | 0 =>
          have hsp0 : w.spawnOk s.n = false := by simpa using hsp
          have hcases : s = (⟨s.n + 0, s.tr ++ hookEvents stage [] state_bytes⟩ : St) := by
            simp [hookEvents]
          simp [runHookList, _run_hook, hsp0, hookEvents]
      | j + 1 =>
          have h0 : w.spawnOk s.n = true := by
            have := hok 0 (Nat.succ_pos _)
            simpa using this
          simp only [runHookList, _run_hook, h0, if_true, Bool.false_eq_true, and_false, ite_false]
          rw [ih ⟨s.n + 1, s.tr ++ [Event.hookSpawn stage h state_bytes]⟩ j
              (by simpa using Nat.lt_of_succ_lt_succ hj) ?_ ?_]
          · have heq : s.n + 1 + j = s.n + (j + 1) := by omega
            simp [heq, hookEvents]
          · intro k hk
            have heq : s.n + 1 + k = s.n + (k + 1) := by omega
            rw [show (⟨s.n + 1, s.tr ++ [Event.hookSpawn stage h state_bytes]⟩ : St).n
                  = s.n + 1 from rfl, heq]
            exact hok (k + 1) (by omega)
          · have heq : s.n + 1 + j = s.n + (j + 1) := by omega
            rw [show (⟨s.n + 1, s.tr ++ [Event.hookSpawn stage h state_bytes]⟩ : St).n
                  = s.n + 1 from rfl, heq]
            exact hsp

/-- Master lemma: when the hooks load, every spawn succeeds, `create`,
`state`, every prestart hook and `start` all exit 0, and the container pid
decodes, the run spawns the full event sequence and exits with the
container wait status clamped to 127 — with no assumption on the statuses
of poststart hooks, poststop hooks, or the final `delete`. -/
theorem main_success (w : World) (runtime : List String) (container_id : String)
    (hs : HookSet) (pid : Nat)
    (hhooks : _get_hooks w.hooksFile = .ok hs)
    (hspawn : ∀ k, w.spawnOk k = true)
    (hcreate : w.status 0 = 0)
    (hstate : w.status 1 = 0)
    (hpid : w.statePid = .ok pid)
    (hpre : ∀ k, k < hs.prestart.length → w.status (2 + k) = 0)
    (hstart : w.status (2 + hs.prestart.length) = 0) :
    main w runtime container_id =
      (fullTrace w runtime container_id hs,
       .exited (if w.containerStatus pid > 127 then 127
                else w.containerStatus pid)) := by
  have e3 : runHookList w ⟨2, [Event.runtimeSpawn runtime "create" container_id,
                    Event.runtimeSpawn runtime "state" container_id]⟩
        "pre-start" hs.prestart w.stateBytes true =
      .ok ⟨2 + hs.prestart.length,
           [Event.runtimeSpawn runtime "create" container_id,
            Event.runtimeSpawn runtime "state" container_id]
             ++ hookEvents "pre-start" hs.prestart w.stateBytes⟩ :=
    runHookList_strict_ok w "pre-start" hs.prestart w.stateBytes _
      (fun k _ => hspawn _) (fun k hk => hpre k hk)
  have e5 : runHookList w
        ⟨2 + hs.prestart.length + 1,
         Event.runtimeSpawn runtime "create" container_id ::
           Event.runtimeSpawn runtime "state" container_id ::
             (hookEvents "pre-start" hs.prestart w.stateBytes
               ++ [Event.runtimeSpawn runtime "start" container_id])⟩
        "post-start" hs.poststart w.stateBytes false =
      .ok ⟨2 + hs.prestart.length + 1 + hs.poststart.length,
           Event.runtimeSpawn runtime "create" container_id ::
             Event.runtimeSpawn runtime "state" container_id ::
               (hookEvents "pre-start" hs.prestart w.stateBytes
                 ++ Event.runtimeSpawn runtime "start" container_id ::
                      hookEvents "post-start" hs.poststart w.stateBytes)⟩ := by
    have := runHookList_nonstrict_ok w "post-start" hs.poststart w.stateBytes
      ⟨2 + hs.prestart.length + 1,
       Event.runtimeSpawn runtime "create" container_id ::
         Event.runtimeSpawn runtime "state" container_id ::
           (hookEvents "pre-start" hs.prestart w.stateBytes
             ++ [Event.runtimeSpawn runtime "start" container_id])⟩
      (fun k _ => hspawn _)
    simpa using this
  have e6 : runHookList w
        ⟨2 + hs.prestart.length + 1 + hs.poststart.length,
         Event.runtimeSpawn runtime "create" container_id ::
           Event.runtimeSpawn runtime "state" container_id ::
             (hookEvents "pre-start" hs.prestart w.stateBytes
               ++ Event.runtimeSpawn runtime "start" container_id ::
                    hookEvents "post-start" hs.poststart w.stateBytes)⟩
        "post-stop" hs.poststop w.stateBytes false =
      .ok ⟨2 + hs.prestart.length + 1 + hs.poststart.length + hs.poststop.length,
           Event.runtimeSpawn runtime "create" container_id ::
             Event.runtimeSpawn runtime "state" container_id ::
               (hookEvents "pre-start" hs.prestart w.stateBytes
                 ++ Event.runtimeSpawn runtime "start" container_id ::
                      (hookEvents "post-start" hs.poststart w.stateBytes
                        ++ hookEvents "post-stop" hs.poststop w.stateBytes))⟩ := by
    have := runHookList_nonstrict_ok w "post-stop" hs.poststop w.stateBytes
      ⟨2 + hs.prestart.length + 1 + hs.poststart.length,
       Event.runtimeSpawn runtime "create" container_id ::
         Event.runtimeSpawn runtime "state" container_id ::
           (hookEvents "pre-start" hs.prestart w.stateBytes
             ++ Event.runtimeSpawn runtime "start" container_id ::
                  hookEvents "post-start" hs.poststart w.stateBytes)⟩
      (fun k _ => hspawn _)
    simpa using this
  simp only [main, hhooks, hpid, _delete, spawnRuntime, hspawn, if_true, ne_eq,
    not_true_eq_false, ite_false, fullTrace]
  simp [hcreate, hstate, e3, hstart, e5, e6, List.append_assoc]

/-! ### Claims -/

/-- C1: on a run in which create, state, all prestart hooks, and start all
succeed (and which reaches the final exit), the final exit code of the
supervisor equals the recorded exit status of the container main process,
except that any
status greater than 127 is clamped to 127. -/
theorem claim_C1_final_exit_clamped (w : World) (runtime : List String)
    (container_id : String) (hs : HookSet) (pid : Nat)
    (hhooks : _get_hooks w.hooksFile = .ok hs)
    (hspawn : ∀ k, w.spawnOk k = true)
    (hcreate : w.status 0 = 0)
    (hstate : w.status 1 = 0)
    (hpid : w.statePid = .ok pid)
    (hpre : ∀ k, k < hs.prestart.length → w.status (2 + k) = 0)
    (hstart : w.status (2 + hs.prestart.length) = 0) :
    (main w runtime container_id).2 =
      .exited (if w.containerStatus pid > 127 then 127
               else w.containerStatus pid) := by
  rw [main_success w runtime container_id hs pid hhooks hspawn hcreate hstate
    hpid hpre hstart]

/-- Witness for C1: a container status of 9 yields final exit code 9, and a
container status of 200 yields final exit code 127. -/
theorem claim_C1_final_exit_clamped_witness :
    (main { baseWorld with containerStatus := fun _ => 9 } ["runc"] "c").2 =
      .exited 9 ∧
    (main { baseWorld with containerStatus := fun _ => 200 } ["runc"] "c").2 =
      .exited 127 := by
  constructor
  · have := claim_C1_final_exit_clamped
      { baseWorld with containerStatus := fun _ => 9 } ["runc"] "c"
      ⟨[], [], []⟩ 42 rfl (fun _ => rfl) rfl rfl rfl (fun _ _ => rfl) rfl
    simpa using this
  · have := claim_C1_final_exit_clamped
      { baseWorld with containerStatus := fun _ => 200 } ["runc"] "c"
      ⟨[], [], []⟩ 42 rfl (fun _ => rfl) rfl rfl rfl (fun _ _ => rfl) rfl
    simpa using this

/-- C2 (refuted; the code single-shot-reaps): the claim says each SIGCHLD
delivery drains every currently-exited child into the ledger until none
remain.  The `_reap` handler body is a single blocking `os.wait()`: with two
children (pids 5 and 6) already exited and one coalesced notification, one
handler invocation reaps only pid 5 and leaves pid 6 exited-but-unreaped. -/
theorem claim_C2_reap_single_shot_not_drain :
    _reap ⟨[(5, 0), (6, 0)], []⟩ = ⟨[(6, 0)], [(5, 0)]⟩ ∧
    (_reap ⟨[(5, 0), (6, 0)], []⟩).pending ≠ [] := by
  exact ⟨rfl, by decide⟩

/-- C5: hook loading returns an empty HookSet (without error) when the
hook-definition file is absent, and propagates the parse error when the file
is present but malformed. -/
theorem claim_C5_absent_empty_malformed_propagates (e : String) :
    _get_hooks none = .ok ⟨[], [], []⟩ ∧
    _get_hooks (some (.error e)) = .error (.parseError e) :=
  ⟨rfl, rfl⟩

/-- Witness for C5 at a concrete parse-error message. -/
theorem claim_C5_absent_empty_malformed_propagates_witness :
    _get_hooks none = .ok ⟨[], [], []⟩ ∧
    _get_hooks (some (.error "bad json")) = .error (.parseError "bad json") :=
  claim_C5_absent_empty_malformed_propagates "bad json"

/-- C9: whenever the `create` subcommand exits with a non-zero status, the
supervisor terminates with exit code 1 having spawned nothing but the
`create` process itself — in particular no `delete` is ever invoked. -/
theorem claim_C9_create_failure_spawns_nothing_else (w : World)
    (runtime : List String) (container_id : String) (hs : HookSet)
    (hhooks : _get_hooks w.hooksFile = .ok hs)
    (hspawn0 : w.spawnOk 0 = true)
    (hcreatef : w.status 0 ≠ 0) :
    main w runtime container_id =
      ([Event.runtimeSpawn runtime "create" container_id], .exited 1) := by
  simp [main, hhooks, spawnRuntime, hspawn0, hcreatef]

/-- Witness for C9: `create` exiting 2 gives exit code 1 with only the
`create` spawn in the trace. -/
theorem claim_C9_create_failure_spawns_nothing_else_witness :
    main { baseWorld with status := fun _ => 2 } ["runc"] "c" =
      ([Event.runtimeSpawn ["runc"] "create" "c"], .exited 1) :=
  claim_C9_create_failure_spawns_nothing_else
    { baseWorld with status := fun _ => 2 } ["runc"] "c"
    ⟨[], [], []⟩ rfl rfl (by decide)

/-- C3: the first prestart hook exiting non-zero (say at position `j`, e.g.
with status 17) makes the run skip the remaining prestart hooks, invoke
`delete` exactly once, and exit with code 1 — never with the status of the
hook itself: the trace ends after prestart hook `j` with the single `delete`
spawn, and the outcome is `exited 1`. -/
theorem claim_C3_prestart_failure_aborts_exit1 (w : World) (runtime : List String)
    (container_id : String) (hs : HookSet) (pid : Nat) (j : Nat)
    (hhooks : _get_hooks w.hooksFile = .ok hs)
    (hspawn : ∀ k, w.spawnOk k = true)
    (hcreate : w.status 0 = 0)
    (hstate : w.status 1 = 0)
    (hpid : w.statePid = .ok pid)
    (hj : j < hs.prestart.length)
    (hok : ∀ k, k < j → w.status (2 + k) = 0)
    (hfail : w.status (2 + j) ≠ 0) :
    main w runtime container_id =
      ([Event.runtimeSpawn runtime "create" container_id,
        Event.runtimeSpawn runtime "state" container_id]
        ++ hookEvents "pre-start" (hs.prestart.take (j + 1)) w.stateBytes
        ++ [Event.runtimeSpawn runtime "delete" container_id],
       .exited 1) := by
  have e3f : runHookList w
        ⟨2, [Event.runtimeSpawn runtime "create" container_id,
             Event.runtimeSpawn runtime "state" container_id]⟩
        "pre-start" hs.prestart w.stateBytes true =
      .failed ⟨2 + j + 1,
               Event.runtimeSpawn runtime "create" container_id ::
                 Event.runtimeSpawn runtime "state" container_id ::
                   hookEvents "pre-start" (hs.prestart.take (j + 1)) w.stateBytes⟩
        (w.status (2 + j)) := by
    have := runHookList_strict_fail w "pre-start" w.stateBytes hs.prestart
      ⟨2, [Event.runtimeSpawn runtime "create" container_id,
           Event.runtimeSpawn runtime "state" container_id]⟩
      j hj (fun k hk => ⟨hspawn _, hok k hk⟩) (hspawn _) hfail
    simpa using this
  simp only [main, hhooks, hpid, _delete, spawnRuntime, hspawn, if_true, ne_eq,
    not_true_eq_false, ite_false]
  simp [hcreate, hstate, e3f, List.append_assoc]

/-- Witness for C3: two prestart hooks, the first exiting 17: only that hook
is spawned, exactly one `delete` follows, and the exit code is 1 (not 17). -/
theorem claim_C3_prestart_failure_aborts_exit1_witness :
    main { baseWorld with
             hooksFile := some (.ok ⟨[hookA, hookB], [], []⟩),
             status := fun k => if k = 2 then 17 else 0 } ["runc"] "c" =
      ([Event.runtimeSpawn ["runc"] "create" "c",
        Event.runtimeSpawn ["runc"] "state" "c",
        Event.hookSpawn "pre-start" hookA [123, 125],
        Event.runtimeSpawn ["runc"] "delete" "c"],
       .exited 1) := by
  have := claim_C3_prestart_failure_aborts_exit1
    { baseWorld with
        hooksFile := some (.ok ⟨[hookA, hookB], [], []⟩),
        status := fun k => if k = 2 then 17 else 0 } ["runc"] "c"
    ⟨[hookA, hookB], [], []⟩ 42 0
    rfl (fun _ => rfl) (by decide) (by decide) rfl (by decide)
    (fun k hk => absurd hk (Nat.not_lt_zero k)) (by decide)
  simpa [hookEvents, baseWorld, hookA] using this

/-- C4: if any hook under prestart, poststart, or poststop carries a
`timeout` key, hook loading fails with the `NotImplementedError`
configuration error, and the run ends fatally with an empty spawn trace —
before any subprocess is spawned. -/
theorem claim_C4_timeout_fatal_before_any_spawn (w : World)
    (runtime : List String) (container_id : String) (hs : HookSet) (hook : Hook)
    (hfile : w.hooksFile = some (.ok hs))
    (hmem : hook ∈ hs.prestart ++ hs.poststart ++ hs.poststop)
    (ht : hook.timeout.isSome = true) :
    _get_hooks w.hooksFile =
      .error (.notImplemented "hook.timeout is not supported yet") ∧
    main w runtime container_id =
      ([], .fatal (.notImplemented "hook.timeout is not supported yet")) := by
  have hany : (hs.prestart ++ hs.poststart ++ hs.poststop).any
      (fun h => h.timeout.isSome) = true := by
    rw [List.any_eq_true]
    exact ⟨hook, hmem, ht⟩
  have hg : _get_hooks w.hooksFile =
      .error (.notImplemented "hook.timeout is not supported yet") := by
    rw [hfile]
    simp only [_get_hooks, hany]
    simp
  exact ⟨hg, by simp [main, hg]⟩

/-- Witness for C4: a poststart hook with `"timeout": 5` aborts loading and
the trace of the run is empty. -/
theorem claim_C4_timeout_fatal_before_any_spawn_witness :
    _get_hooks (some (.ok ⟨[], [hookT], []⟩)) =
      .error (.notImplemented "hook.timeout is not supported yet") ∧
    main { baseWorld with hooksFile := some (.ok ⟨[], [hookT], []⟩) } ["runc"] "c" =
      ([], .fatal (.notImplemented "hook.timeout is not supported yet")) :=
  claim_C4_timeout_fatal_before_any_spawn
    { baseWorld with hooksFile := some (.ok ⟨[], [hookT], []⟩) } ["runc"] "c"
    ⟨[], [hookT], []⟩ hookT rfl (by decide) rfl

/-- C6: whenever the `state` subcommand exits non-zero, the supervisor logs
the captured stderr bytes, invokes `delete` exactly once, and exits with
code 1, with no hook of any stage ever spawned. -/
theorem claim_C6_state_failure_logs_deletes_exit1 (w : World)
    (runtime : List String) (container_id : String) (hs : HookSet)
    (hhooks : _get_hooks w.hooksFile = .ok hs)
    (hspawn : ∀ k, w.spawnOk k = true)
    (hcreate : w.status 0 = 0)
    (hstatef : w.status 1 ≠ 0) :
    main w runtime container_id =
      ([Event.runtimeSpawn runtime "create" container_id,
        Event.runtimeSpawn runtime "state" container_id,
        Event.logStderr w.stateStderr,
        Event.runtimeSpawn runtime "delete" container_id],
       .exited 1) := by
  simp [main, hhooks, spawnRuntime, _delete, hspawn, hcreate, hstatef]

/-- Witness for C6: `state` exiting 7 with hooks configured in every stage:
the trace is create, state, the stderr log, one delete; exit code 1. -/
theorem claim_C6_state_failure_logs_deletes_exit1_witness :
    main { baseWorld with
             hooksFile := some (.ok ⟨[hookA], [hookB], [hookA]⟩),
             status := fun k => if k = 1 then 7 else 0 } ["runc"] "c" =
      ([Event.runtimeSpawn ["runc"] "create" "c",
        Event.runtimeSpawn ["runc"] "state" "c",
        Event.logStderr [101, 114, 114],
        Event.runtimeSpawn ["runc"] "delete" "c"],
       .exited 1) := by
  have := claim_C6_state_failure_logs_deletes_exit1
    { baseWorld with
        hooksFile := some (.ok ⟨[hookA], [hookB], [hookA]⟩),
        status := fun k => if k = 1 then 7 else 0 } ["runc"] "c"
    ⟨[hookA], [hookB], [hookA]⟩
    rfl (fun _ => rfl) (by decide) (by decide)
  simpa [baseWorld] using this

/-- C7: non-zero exit statuses of poststart or poststop hooks leave the run
unchanged: a run whose create/state/prestart/start stages succeed is
identical (same spawn trace, same final exit code) to the same run with every
status from the poststart stage on replaced by 0, and its trace is the full
trace (all poststart hooks, all poststop hooks, the final `delete`). -/
theorem claim_C7_best_effort_failures_leave_run_unchanged (w : World)
    (runtime : List String) (container_id : String) (hs : HookSet) (pid : Nat)
    (hhooks : _get_hooks w.hooksFile = .ok hs)
    (hspawn : ∀ k, w.spawnOk k = true)
    (hcreate : w.status 0 = 0)
    (hstate : w.status 1 = 0)
    (hpid : w.statePid = .ok pid)
    (hpre : ∀ k, k < hs.prestart.length → w.status (2 + k) = 0)
    (hstart : w.status (2 + hs.prestart.length) = 0) :
    main w runtime container_id =
      main (zeroFrom w (3 + hs.prestart.length)) runtime container_id ∧
    (main w runtime container_id).1 = fullTrace w runtime container_id hs := by
  have hzs : ∀ k, k < 3 + hs.prestart.length →
      (zeroFrom w (3 + hs.prestart.length)).status k = w.status k := by
    intro k hk
    simp [zeroFrom, hk]
  constructor
  · rw [main_success w runtime container_id hs pid hhooks hspawn hcreate hstate
        hpid hpre hstart,
      main_success (zeroFrom w (3 + hs.prestart.length)) runtime container_id
        hs pid hhooks hspawn
        (by rw [hzs 0 (by omega)]; exact hcreate)
        (by rw [hzs 1 (by omega)]; exact hstate)
        hpid
        (fun k hk => by rw [hzs (2 + k) (by omega)]; exact hpre k hk)
        (by rw [hzs (2 + hs.prestart.length) (by omega)]; exact hstart)]
    rfl
  · rw [main_success w runtime container_id hs pid hhooks hspawn hcreate hstate
        hpid hpre hstart]

/-- Witness for C7: one hook per stage, the poststart hook exiting 5 and the
poststop hook exiting 6: the run equals its all-statuses-zeroed variant and
its trace is the full trace. -/
theorem claim_C7_best_effort_failures_leave_run_unchanged_witness :
    main { baseWorld with
             hooksFile := some (.ok ⟨[hookA], [hookB], [hookA]⟩),
             status := fun k => if k = 4 then 5 else if k = 5 then 6 else 0 }
        ["runc"] "c" =
      main (zeroFrom
        { baseWorld with
            hooksFile := some (.ok ⟨[hookA], [hookB], [hookA]⟩),
            status := fun k => if k = 4 then 5 else if k = 5 then 6 else 0 } 4)
        ["runc"] "c" ∧
    (main { baseWorld with
              hooksFile := some (.ok ⟨[hookA], [hookB], [hookA]⟩),
              status := fun k => if k = 4 then 5 else if k = 5 then 6 else 0 }
        ["runc"] "c").1 =
      fullTrace { baseWorld with
              hooksFile := some (.ok ⟨[hookA], [hookB], [hookA]⟩),
              status := fun k => if k = 4 then 5 else if k = 5 then 6 else 0 }
        ["runc"] "c" ⟨[hookA], [hookB], [hookA]⟩ := by
  have := claim_C7_best_effort_failures_leave_run_unchanged
    { baseWorld with
        hooksFile := some (.ok ⟨[hookA], [hookB], [hookA]⟩),
        status := fun k => if k = 4 then 5 else if k = 5 then 6 else 0 }
    ["runc"] "c" ⟨[hookA], [hookB], [hookA]⟩ 42
    rfl (fun _ => rfl) (by decide) (by decide) rfl
    (fun k hk => by
      have hk0 : k = 0 := by simpa using hk
      subst hk0
      decide)
    (by decide)
  simpa using this

/-- C8: the byte payload delivered to the stdin of every hook spawned in a
completing run — prestart, poststart, and poststop alike — is exactly the
`stateBytes` payload captured once from the single `state` invocation. -/
theorem claim_C8_every_hook_fed_state_bytes (w : World)
    (runtime : List String) (container_id : String) (hs : HookSet) (pid : Nat)
    (hhooks : _get_hooks w.hooksFile = .ok hs)
    (hspawn : ∀ k, w.spawnOk k = true)
    (hcreate : w.status 0 = 0)
    (hstate : w.status 1 = 0)
    (hpid : w.statePid = .ok pid)
    (hpre : ∀ k, k < hs.prestart.length → w.status (2 + k) = 0)
    (hstart : w.status (2 + hs.prestart.length) = 0) :
    ∀ stage hook inp, Event.hookSpawn stage hook inp ∈ (main w runtime container_id).1 →
      inp = w.stateBytes := by
  rw [main_success w runtime container_id hs pid hhooks hspawn hcreate hstate
    hpid hpre hstart]
  intro stage hook inp hmem
  simp [fullTrace, hookEvents] at hmem
  rcases hmem with ⟨a, ha, h1, h2, h3⟩ | ⟨a, ha, h1, h2, h3⟩ | ⟨a, ha, h1, h2, h3⟩ <;>
    exact h3.symm

/-- Witness for C8: with one hook per stage, each hook-spawn event in the
trace carries exactly the captured `state` bytes. -/
theorem claim_C8_every_hook_fed_state_bytes_witness :
    ([123, 125] : List Nat) =
      { baseWorld with
          hooksFile := some (.ok ⟨[hookA], [hookB], [hookA]⟩) }.stateBytes :=
  claim_C8_every_hook_fed_state_bytes
    { baseWorld with hooksFile := some (.ok ⟨[hookA], [hookB], [hookA]⟩) }
    ["runc"] "c" ⟨[hookA], [hookB], [hookA]⟩ 42
    rfl (fun _ => rfl) rfl rfl rfl (fun k hk => rfl) rfl
    "pre-start" hookA [123, 125] (by decide)

/-- C10 (implicit): when the `Popen` spawn of a best-effort hook — the `j`-th
poststart hook (spawn index `m = 3 + #prestart + j`) or the `j`-th poststop
hook (spawn index `m = 3 + #prestart + #poststart + j`) — itself fails after
a run that succeeded through `start`, the error propagates uncaught out of
the hook loop: the outcome is fatal, the trace stops at exactly the `m`
successful spawns before it (so the remaining hooks of the stage and every
later stage are skipped), and no `delete` is ever spawned. -/
theorem claim_C10_best_effort_spawn_failure_skips_delete (w : World)
    (runtime : List String) (container_id : String) (hs : HookSet) (pid : Nat)
    (m : Nat)
    (hhooks : _get_hooks w.hooksFile = .ok hs)
    (hspawnlt : ∀ k, k < m → w.spawnOk k = true)
    (hspawnfail : w.spawnOk m = false)
    (hcreate : w.status 0 = 0)
    (hstate : w.status 1 = 0)
    (hpid : w.statePid = .ok pid)
    (hpre : ∀ k, k < hs.prestart.length → w.status (2 + k) = 0)
    (hstart : w.status (2 + hs.prestart.length) = 0)
    (hrange : (∃ j, j < hs.poststart.length ∧ m = 3 + hs.prestart.length + j) ∨
              (∃ j, j < hs.poststop.length ∧
                 m = 3 + hs.prestart.length + hs.poststart.length + j)) :
    (main w runtime container_id).2 = .fatal (.spawnError "hook") ∧
    Event.runtimeSpawn runtime "delete" container_id ∉ (main w runtime container_id).1 ∧
    (main w runtime container_id).1.length = m := by
  have hm3 : 3 + hs.prestart.length ≤ m := by
    rcases hrange with ⟨j, hj, hmeq⟩ | ⟨j, hj, hmeq⟩ <;> omega
  have hsp0 : w.spawnOk 0 = true := hspawnlt 0 (by omega)
  have hsp1 : w.spawnOk 1 = true := hspawnlt 1 (by omega)
  have hspstart : w.spawnOk (2 + hs.prestart.length) = true :=
    hspawnlt (2 + hs.prestart.length) (by omega)
  have e3 : runHookList w
        ⟨2, [Event.runtimeSpawn runtime "create" container_id,
             Event.runtimeSpawn runtime "state" container_id]⟩
        "pre-start" hs.prestart w.stateBytes true =
      .ok ⟨2 + hs.prestart.length,
           [Event.runtimeSpawn runtime "create" container_id,
            Event.runtimeSpawn runtime "state" container_id]
             ++ hookEvents "pre-start" hs.prestart w.stateBytes⟩ :=
    runHookList_strict_ok w "pre-start" hs.prestart w.stateBytes _
      (fun k hk => hspawnlt (2 + k) (by omega)) (fun k hk => hpre k hk)
  have hdc : ("delete" : String) ≠ "create" := by decide
  have hds : ("delete" : String) ≠ "state" := by decide
  have hdst : ("delete" : String) ≠ "start" := by decide
  rcases hrange with ⟨j, hj, hmeq⟩ | ⟨j, hj, hmeq⟩
  · -- spawn failure at the j-th poststart hook
    have e5e : runHookList w
          ⟨2 + hs.prestart.length + 1,
           Event.runtimeSpawn runtime "create" container_id ::
             Event.runtimeSpawn runtime "state" container_id ::
               (hookEvents "pre-start" hs.prestart w.stateBytes
                 ++ [Event.runtimeSpawn runtime "start" container_id])⟩
          "post-start" hs.poststart w.stateBytes false =
        .spawnErr ⟨2 + hs.prestart.length + 1 + j,
                   Event.runtimeSpawn runtime "create" container_id ::
                     Event.runtimeSpawn runtime "state" container_id ::
                       (hookEvents "pre-start" hs.prestart w.stateBytes
                         ++ Event.runtimeSpawn runtime "start" container_id ::
                              hookEvents "post-start" (hs.poststart.take j)
                                w.stateBytes)⟩ := by
      have := runHookList_nonstrict_spawnErr w "post-start" w.stateBytes
        hs.poststart
        ⟨2 + hs.prestart.length + 1,
         Event.runtimeSpawn runtime "create" container_id ::
           Event.runtimeSpawn runtime "state" container_id ::
             (hookEvents "pre-start" hs.prestart w.stateBytes
               ++ [Event.runtimeSpawn runtime "start" container_id])⟩
        j hj
        (fun k hk => hspawnlt (2 + hs.prestart.length + 1 + k) (by omega))
        (by
          have hmeq' : 2 + hs.prestart.length + 1 + j = m := by omega
          show w.spawnOk (2 + hs.prestart.length + 1 + j) = false
          rw [hmeq']
          exact hspawnfail)
      simpa using this
    have hmain : main w runtime container_id =
        (Event.runtimeSpawn runtime "create" container_id ::
           Event.runtimeSpawn runtime "state" container_id ::
             (hookEvents "pre-start" hs.prestart w.stateBytes
               ++ Event.runtimeSpawn runtime "start" container_id ::
                    hookEvents "post-start" (hs.poststart.take j) w.stateBytes),
         .fatal (.spawnError "hook")) := by
      simp only [main, hhooks, hpid, _delete, spawnRuntime, if_true, ne_eq,
        not_true_eq_false, ite_false]
      simp [hsp0, hsp1, hspstart, hcreate, hstate, e3, hstart, e5e,
        List.append_assoc]
    rw [hmain]
    refine ⟨rfl, ?_, ?_⟩
    · intro hmem
      simp [hookEvents, hdc, hds, hdst] at hmem
      have hmem2 := List.take_subset _ _ hmem
      simp at hmem2
    · simp [hookEvents, List.length_take]
      omega
  · -- spawn failure at the j-th poststop hook
    have e5 : runHookList w
          ⟨2 + hs.prestart.length + 1,
           Event.runtimeSpawn runtime "create" container_id ::
             Event.runtimeSpawn runtime "state" container_id ::
               (hookEvents "pre-start" hs.prestart w.stateBytes
                 ++ [Event.runtimeSpawn runtime "start" container_id])⟩
          "post-start" hs.poststart w.stateBytes false =
        .ok ⟨2 + hs.prestart.length + 1 + hs.poststart.length,
             Event.runtimeSpawn runtime "create" container_id ::
               Event.runtimeSpawn runtime "state" container_id ::
                 (hookEvents "pre-start" hs.prestart w.stateBytes
                   ++ Event.runtimeSpawn runtime "start" container_id ::
                        hookEvents "post-start" hs.poststart w.stateBytes)⟩ := by
      have := runHookList_nonstrict_ok w "post-start" hs.poststart w.stateBytes
        ⟨2 + hs.prestart.length + 1,
         Event.runtimeSpawn runtime "create" container_id ::
           Event.runtimeSpawn runtime "state" container_id ::
             (hookEvents "pre-start" hs.prestart w.stateBytes
               ++ [Event.runtimeSpawn runtime "start" container_id])⟩
        (fun k hk => hspawnlt (2 + hs.prestart.length + 1 + k) (by omega))
      simpa using this
    have e6e : runHookList w
          ⟨2 + hs.prestart.length + 1 + hs.poststart.length,
           Event.runtimeSpawn runtime "create" container_id ::
             Event.runtimeSpawn runtime "state" container_id ::
               (hookEvents "pre-start" hs.prestart w.stateBytes
                 ++ Event.runtimeSpawn runtime "start" container_id ::
                      hookEvents "post-start" hs.poststart w.stateBytes)⟩
          "post-stop" hs.poststop w.stateBytes false =
        .spawnErr ⟨2 + hs.prestart.length + 1 + hs.poststart.length + j,
                   Event.runtimeSpawn runtime "create" container_id ::
                     Event.runtimeSpawn runtime "state" container_id ::
                       (hookEvents "pre-start" hs.prestart w.stateBytes
                         ++ Event.runtimeSpawn runtime "start" container_id ::
                              (hookEvents "post-start" hs.poststart w.stateBytes
                                ++ hookEvents "post-stop" (hs.poststop.take j)
                                     w.stateBytes))⟩ := by
      have := runHookList_nonstrict_spawnErr w "post-stop" w.stateBytes
        hs.poststop
        ⟨2 + hs.prestart.length + 1 + hs.poststart.length,
         Event.runtimeSpawn runtime "create" container_id ::
           Event.runtimeSpawn runtime "state" container_id ::
             (hookEvents "pre-start" hs.prestart w.stateBytes
               ++ Event.runtimeSpawn runtime "start" container_id ::
                    hookEvents "post-start" hs.poststart w.stateBytes)⟩
        j hj
        (fun k hk =>
          hspawnlt (2 + hs.prestart.length + 1 + hs.poststart.length + k)
            (by omega))
        (by
          have hmeq' : 2 + hs.prestart.length + 1 + hs.poststart.length + j = m := by
            omega
          show w.spawnOk
              (2 + hs.prestart.length + 1 + hs.poststart.length + j) = false
          rw [hmeq']
          exact hspawnfail)
      simpa using this
    have hmain : main w runtime container_id =
        (Event.runtimeSpawn runtime "create" container_id ::
           Event.runtimeSpawn runtime "state" container_id ::
             (hookEvents "pre-start" hs.prestart w.stateBytes
               ++ Event.runtimeSpawn runtime "start" container_id ::
                    (hookEvents "post-start" hs.poststart w.stateBytes
                      ++ hookEvents "post-stop" (hs.poststop.take j) w.stateBytes)),
         .fatal (.spawnError "hook")) := by
      simp only [main, hhooks, hpid, _delete, spawnRuntime, if_true, ne_eq,
        not_true_eq_false, ite_false]
      simp [hsp0, hsp1, hspstart, hcreate, hstate, e3, hstart, e5, e6e,
        List.append_assoc]
    rw [hmain]
    refine ⟨rfl, ?_, ?_⟩
    · intro hmem
      simp [hookEvents, hdc, hds, hdst] at hmem
      have hmem2 := List.take_subset _ _ hmem
      simp at hmem2
    · simp [hookEvents, List.length_take]
      omega

/-- Witness for C10: one poststart hook whose spawn fails (spawn index 3
after create, state, start with no prestart hooks): the outcome is the
uncaught spawn error, the trace has exactly the 3 earlier spawns, and no
`delete` occurs. -/
theorem claim_C10_best_effort_spawn_failure_skips_delete_witness :
    (main { baseWorld with
              hooksFile := some (.ok ⟨[], [hookA], [hookB]⟩),
              spawnOk := fun k => k != 3 } ["runc"] "c").2 =
      .fatal (.spawnError "hook") ∧
    Event.runtimeSpawn ["runc"] "delete" "c" ∉
      (main { baseWorld with
                hooksFile := some (.ok ⟨[], [hookA], [hookB]⟩),
                spawnOk := fun k => k != 3 } ["runc"] "c").1 ∧
    (main { baseWorld with
              hooksFile := some (.ok ⟨[], [hookA], [hookB]⟩),
              spawnOk := fun k => k != 3 } ["runc"] "c").1.length = 3 :=
  claim_C10_best_effort_spawn_failure_skips_delete
    { baseWorld with
        hooksFile := some (.ok ⟨[], [hookA], [hookB]⟩),
        spawnOk := fun k => k != 3 } ["runc"] "c"
    ⟨[], [hookA], [hookB]⟩ 42 3
    rfl
    (fun k hk => by
      simp only [bne_iff_ne, ne_eq]
      omega)
    (by decide)
    rfl rfl rfl
    (fun k hk => absurd hk (Nat.not_lt_zero k))
    rfl
    (Or.inl ⟨0, by decide, rfl⟩)

end OciRun
